import Mathlib

/-!
Shallow embedding of the audio-snippet-automation extraction pipeline
(`src/audio_snippet_automation/core.py`, `snippet_cli.py`,
`generate_soundboard.py`) and proofs about the spec's claims.

Strings are modelled by Lean `String`; Python's `str.strip`, `str.lower`,
`str.title`, `str.replace` and `pathlib`'s `suffix` / `with_suffix` are
re-implemented here character-by-character (ASCII-faithful) so that all
definitions kernel-evaluate. External processes (yt-dlp, ffmpeg) are
modelled by oracles deciding the success of each invocation, and the
filesystem by a list of paths.
-/

/-- ASCII whitespace, the characters stripped by `str.strip` on the
inputs this pipeline sees. -/
def wsChar (c : Char) : Bool := c = ' ' || c = '\t' || c = '\n' || c = '\r'

/-- Python `str.strip()`: drop leading and trailing whitespace. -/
def pyStrip (s : String) : String :=
  ⟨((s.data.dropWhile wsChar).reverse.dropWhile wsChar).reverse⟩

/-- ASCII lower-casing of one character. -/
def lowerChar (c : Char) : Char :=
  if 'A' ≤ c && c ≤ 'Z' then Char.ofNat (c.toNat + 32) else c

/-- ASCII upper-casing of one character. -/
def upperChar (c : Char) : Char :=
  if 'a' ≤ c && c ≤ 'z' then Char.ofNat (c.toNat - 32) else c

/-- Python `str.lower()` (ASCII fragment). -/
def pyLower (s : String) : String := ⟨s.data.map lowerChar⟩

/-- Python `str.replace(a, b)` for single-character patterns. -/
def pyReplaceChar (a b : Char) (s : String) : String :=
  ⟨s.data.map (fun c => if c = a then b else c)⟩

/-- Helper for `pyTitle`: walk the characters remembering whether the
previous character was alphabetic. -/
def pyTitleGo : List Char → Bool → List Char
  | [], _ => []
  | c :: rest, prevAlpha =>
    if c.isAlpha then
      (if prevAlpha then lowerChar c else upperChar c) :: pyTitleGo rest true
    else
      c :: pyTitleGo rest false

/-- Python `str.title()` (ASCII fragment): capitalize the first letter of
every alphabetic run, lower-case the rest. -/
def pyTitle (s : String) : String := ⟨pyTitleGo s.data false⟩

/-- `pathlib.PurePath.suffix` of a file name: the part from the last dot
on, empty when the dot is leading, trailing or absent. -/
def pySuffix (name : String) : String :=
  let cs := name.data
  match cs.reverse.findIdx? (fun c => c = '.') with
  | none => ""
  | some r =>
    let i := cs.length - 1 - r
    if 0 < i && i < cs.length - 1 then ⟨cs.drop i⟩ else ""

/-- `pathlib.PurePath.with_suffix` on a path string: replace the final
component's suffix by `newSuffix`. -/
def pyWithSuffix (path : String) (newSuffix : String) : String :=
  let cs := path.data
  let split :=
    match cs.reverse.findIdx? (fun c => c = '/') with
    | none => ([], cs)
    | some r => (cs.take (cs.length - r), cs.drop (cs.length - r))
  let name := split.2
  let stem := name.take (name.length - (pySuffix ⟨name⟩).data.length)
  ⟨split.1 ++ stem ++ newSuffix.data⟩

/-- Integer square root by exhaustive search; models Python's
`int(math.sqrt(n))`, which agrees with the exact floor square root on
every count this program handles. -/
def isqrt (n : Nat) : Nat :=
  (List.range (n + 1)).foldl (fun acc k => if k * k ≤ n then k else acc) 0

/-- One candidate test of `calculate_optimal_grid`'s inner loop: keep the
candidate `(rows, cols)` when it meets all four criteria of the source
(`rows >= cols`, `rows - cols <= 2`, `rows*cols >= num_files`, strictly
fewer total slots than the best so far, `none` standing for the initial
`float("inf")`). -/
def gridStep (num_files : Nat) (s : Nat × Nat × Option Nat) (rc : Nat × Nat) :
    Nat × Nat × Option Nat :=
  let rows := rc.1
  let cols := rc.2
  let total := rows * cols
  let better :=
    match s.2.2 with
    | none => true
    | some m => decide (total < m)
  if cols ≤ rows && rows - cols ≤ 2 && num_files ≤ total && better then
    (rows, cols, some total)
  else s

/-- `generate_soundboard.calculate_optimal_grid`: search `cols` from `1`
to `int(sqrt(n)) + 5` and `rows` from `cols` to `cols + 2`, keeping the
first candidate with minimal `rows*cols` among those with
`rows >= cols`, `rows - cols <= 2` and `rows*cols >= n`; fall back to
`(n, 1)` when the search finds nothing. -/
def calculate_optimal_grid (num_files : Nat) : Nat × Nat :=
  if num_files = 0 then (1, 1)
  else if num_files = 1 then (1, 1)
  else
    let max_search := isqrt num_files + 5
    let final :=
      (List.range' 1 max_search).foldl
        (fun s cols =>
          (List.range' cols 3).foldl
            (fun s rows => gridStep num_files s (rows, cols)) s)
        (num_files, 1, none)
    (final.1, final.2.1)

/-- One directory entry as seen by `Path.iterdir()`: its file name and
whether it is a regular file. -/
structure Entry where
  name : String
  isFile : Bool
deriving DecidableEq

/-- `set.add`: append the name unless it is already present. -/
def addUnique (acc : List String) (n : String) : List String :=
  if n ∈ acc then acc else acc ++ [n]

/-- The inner loop of `find_audio_files` for one extension: add every
regular file whose lower-cased suffix equals the lower-cased extension. -/
def addMatches (ext : String) : List Entry → List String → List String
  | [], acc => acc
  | e :: rest, acc =>
    addMatches ext rest
      (if e.isFile && decide (pyLower (pySuffix e.name) = pyLower ext) then
        addUnique acc e.name
      else acc)

/-- The outer loop of `find_audio_files` over the extension list. -/
def collectAll : List String → List Entry → List String → List String
  | [], _, acc => acc
  | ext :: rest, folder, acc => collectAll rest folder (addMatches ext folder acc)

/-- Lexicographic comparison of character lists by code point; the order
underlying Python's `sorted(..., key=lambda p: p.name.lower())`. -/
def lexLe : List Char → List Char → Bool
  | [], _ => true
  | _ :: _, [] => false
  | a :: as, b :: bs =>
    if a.toNat < b.toNat then true
    else if b.toNat < a.toNat then false
    else lexLe as bs

/-- Sort key order of `find_audio_files`: compare lower-cased names. -/
def nameKeyLe (a b : String) : Bool := lexLe (pyLower a).data (pyLower b).data

/-- `generate_soundboard.find_audio_files`: collect, into a set, every
regular file of the folder whose lower-cased suffix matches one of the
lower-cased extensions, then sort the set by lower-cased name. -/
def find_audio_files (folder : List Entry) (extensions : List String) :
    List String :=
  (collectAll extensions folder []).mergeSort nameKeyLe

/-- One yt-dlp invocation's credential shape: `--cookies FILE`,
`--cookies-from-browser BROWSER`, or no cookie argument at all. -/
inductive Attempt where
  | withFile (f : String)
  | withBrowser (b : String)
  | plain
deriving DecidableEq

/-- Outcome of `run_with_cookie_fallback`: the yt-dlp invocations made in
order, the console lines printed, and `some stdout` on success or `none`
when an `AudioSnippetError` propagates to the caller. -/
structure CallResult where
  attempts : List Attempt
  msgs : List String
  result : Option String
deriving DecidableEq

/-- `core.run_with_cookie_fallback`, with the external yt-dlp call
modelled by `oracle : Attempt → Option String` (the stdout of a
successful `run_command_output`, or `none` for a failing one). -/
def run_with_cookie_fallback (oracle : Attempt → Option String)
    (cookie_browser cookie_file : Option String) : CallResult :=
  match cookie_file with
  | some f =>
    match oracle (.withFile f) with
    | some out => ⟨[.withFile f], [], some out⟩
    | none =>
      ⟨[.withFile f],
        ["[ERROR] Failed with cookie file. Check that the file exists and is valid."],
        none⟩
  | none =>
    match cookie_browser with
    | none =>
      match oracle .plain with
      | some out => ⟨[.plain], [], some out⟩
      | none => ⟨[.plain], [], none⟩
    | some b =>
      match oracle (.withBrowser b) with
      | some out => ⟨[.withBrowser b], [], some out⟩
      | none =>
        let warns :=
          ["[WARN] Cookie extraction from " ++ b ++ " failed.",
           "[WARN] This usually happens when the browser is running.",
           "[WARN] Try: 1) Close all browser windows, 2) Use --cookies file instead, or 3) Try without cookies.",
           "[WARN] Attempting without cookies..."]
        match oracle .plain with
        | some out => ⟨[.withBrowser b, .plain], warns, some out⟩
        | none =>
          ⟨[.withBrowser b, .plain],
            warns ++
              ["[ERROR] Failed both with and without cookies. Video may be age-restricted and require authentication.",
               "[HELP] Solutions:",
               "[HELP] 1. Close ALL " ++ b ++ " windows and try again",
               "[HELP] 2. Export cookies manually: https://github.com/yt-dlp/yt-dlp/wiki/FAQ#how-do-i-pass-cookies-to-yt-dlp",
               "[HELP] 3. Use a different browser (try --cookies-from-browser firefox)"],
            none⟩

/-- `core.get_video_id`: resolve a URL to a video id through
`run_with_cookie_fallback`. -/
def get_video_id (oracle : Attempt → Option String)
    (cookie_browser cookie_file : Option String) : CallResult :=
  run_with_cookie_fallback oracle cookie_browser cookie_file

/-- `core.time_str`: `str(t).strip()`. -/
def time_str (t : String) : String := pyStrip t

/-- `validate_csv_format`: the required CSV columns are present. -/
def validate_csv_format (fieldnames : List String) : Bool :=
  ["end", "start", "url"].all (fun c => c ∈ fieldnames)

/-- Remove a path from the modelled filesystem (`unlink`). -/
def fsRemove (fs : List String) (p : String) : List String :=
  fs.filter (fun q => q ≠ p)

/-- Create or overwrite a path in the modelled filesystem. -/
def fsAdd (fs : List String) (p : String) : List String :=
  p :: fsRemove fs p

/-- Outcome of `download_audio`: yt-dlp invocations made, whether the
browser-cookie retry warning was printed, `some path` of the cached
audio on success (or `none` when the error propagates), and the
filesystem afterwards. -/
structure DownloadResult where
  attempts : List Attempt
  warned : Bool
  result : Option String
  fs : List String
deriving DecidableEq

/-- The credential `download_audio` uses for its first yt-dlp
invocation: the cookie file when configured, else the browser store
when configured, else none. -/
def chosen_cookie_attempt (cookie_browser cookie_file : Option String) :
    Attempt :=
  match cookie_file with
  | some f => .withFile f
  | none =>
    match cookie_browser with
    | some b => .withBrowser b
    | none => .plain

/-- `core.download_audio` with the external `run_command` modelled by
`fetchOk : Attempt → Bool`; a successful fetch materializes
`tempdir/video_id.m4a`. The cached file short-circuits everything; on a
miss the credential is chosen as in the source (`cookie_file` first,
else `cookie_browser`, else none), and — exactly as in the source — a
failure retries once without cookies whenever `cookie_browser` is set,
regardless of which credential the failing attempt used. -/
def download_audio (fetchOk : Attempt → Bool) (video_id : String)
    (tempdir : String) (cookie_browser cookie_file : Option String)
    (fs : List String) : DownloadResult :=
  let temp_audio := tempdir ++ "/" ++ video_id ++ ".m4a"
  if temp_audio ∈ fs then ⟨[], false, some temp_audio, fs⟩
  else
    let first := chosen_cookie_attempt cookie_browser cookie_file
    if fetchOk first then ⟨[first], false, some temp_audio, fsAdd fs temp_audio⟩
    else
      match cookie_browser with
      | some _ =>
        if fetchOk .plain then
          ⟨[first, .plain], true, some temp_audio, fsAdd fs temp_audio⟩
        else ⟨[first, .plain], true, none, fs⟩
      | none => ⟨[first], false, none, fs⟩

/-- Outcome of `convert_format`: the external ffmpeg invocations (their
full argument lists), the filesystem afterwards, and the error message
when an `AudioSnippetError` is raised. -/
structure ConvertResult where
  commands : List (List String)
  fs : List String
  error : Option String
deriving DecidableEq

/-- `core.convert_format` with the external ffmpeg run modelled by
`convertOk`: `m4a` unlinks a pre-existing final file and renames the
intermediate onto it with no external invocation; `mp3` and `wav`
re-encode via ffmpeg and unlink the intermediate; anything else raises
`Unsupported format`. -/
def convert_format (convertOk : Bool) (fs : List String)
    (input_file output_file : String) (format_type : String) : ConvertResult :=
  if format_type = "m4a" then
    let fs1 := if output_file ∈ fs then fsRemove fs output_file else fs
    ⟨[], fsAdd (fsRemove fs1 input_file) output_file, none⟩
  else if format_type = "mp3" then
    let cmd := ["ffmpeg", "-y", "-i", input_file, "-q:a", "2", output_file]
    if convertOk then
      ⟨[cmd], fsRemove (fsAdd fs output_file) input_file, none⟩
    else ⟨[cmd], fs, some "Command failed"⟩
  else if format_type = "wav" then
    let cmd := ["ffmpeg", "-y", "-i", input_file, output_file]
    if convertOk then
      ⟨[cmd], fsRemove (fsAdd fs output_file) input_file, none⟩
    else ⟨[cmd], fs, some "Command failed"⟩
  else ⟨[], fs, some ("Unsupported format: " ++ format_type)⟩

/-- Outcome of `cut_audio`: the ffmpeg invocation, `some` intermediate
path on success, and the filesystem afterwards. -/
structure CutResult where
  commands : List (List String)
  result : Option String
  fs : List String
deriving DecidableEq

/-- `core.cut_audio` with the external ffmpeg run modelled by `cutOk`:
write `output.with_suffix(".cut.m4a")` by re-encode (`precise`) or
stream copy. -/
def cut_audio (cutOk : Bool) (input_file start stop output_file : String)
    (precise : Bool) (fs : List String) : CutResult :=
  let temp_cut := pyWithSuffix output_file ".cut.m4a"
  let cmd :=
    if precise then
      ["ffmpeg", "-y", "-ss", start, "-to", stop, "-i", input_file,
       "-c:a", "aac", "-b:a", "192k", temp_cut]
    else
      ["ffmpeg", "-y", "-ss", start, "-to", stop, "-i", input_file,
       "-c", "copy", temp_cut]
  if cutOk then ⟨[cmd], some temp_cut, fsAdd fs temp_cut⟩
  else ⟨[cmd], none, fs⟩

/-- One parsed CSV row; a missing cell is the empty string, exactly as
`row.get(...) or ""` produces. -/
structure Row where
  url : String
  start : String
  stop : String
  output : String
  format : String
deriving DecidableEq

/-- The run-level configuration consumed by `process_csv_row`. -/
structure Args where
  fmt : String
  precise : Bool
  soundboard_ready : Bool
  cookies_from_browser : Option String
  cookies : Option String
  outdir : String
  tempdir : String

/-- Success oracles for the external invocations one job can make. -/
structure JobEnv where
  resolve : Attempt → Option String
  fetch : Attempt → Bool
  cut : Bool
  convert : Bool

/-- How one row ends: skipped (missing required cell), errored
(`AudioSnippetError` caught by the orchestrator), or completed with its
final artifact path and soundboard label. -/
inductive RowOutcome where
  | skipped
  | errored
  | ok (path : String) (label : String)
deriving DecidableEq

/-- The display label derived from an output name in `process_csv_row`:
separators to spaces, title case, truncated to 22 characters plus an
ellipsis beyond 25. -/
def mkLabel (out_base : String) : String :=
  let label := pyTitle (pyReplaceChar '-' ' ' (pyReplaceChar '_' ' ' out_base))
  if 25 < label.data.length then ⟨label.data.take 22⟩ ++ "..." else label

/-- Outcome of `process_csv_row`: how the row ended, the filesystem
afterwards, and the warning lines printed. -/
structure RowResult where
  outcome : RowOutcome
  fs : List String
  msgs : List String

/-- `snippet_cli.process_csv_row`: trim the cells, pick the format (the
row's column, else the run default, overridden to `wav` in
soundboard-ready mode), skip on a missing required cell, then resolve,
fetch (with cache), cut and convert; any failing step raises
`AudioSnippetError`, modelled as the `errored` outcome. -/
def process_csv_row (env : JobEnv) (row : Row) (rowNum : Nat) (args : Args)
    (fs : List String) : RowResult :=
  let url := pyStrip row.url
  let start := time_str row.start
  let stop := time_str row.stop
  let out_base0 := pyStrip row.output
  let rowFmt := pyLower (pyStrip row.format)
  let fmt0 := if rowFmt = "" then args.fmt else rowFmt
  let fmt := if args.soundboard_ready then "wav" else fmt0
  if url = "" || start = "" || stop = "" then
    ⟨.skipped, fs,
      ["[WARN] Row " ++ toString rowNum ++ " missing url/start/end. Skipping."]⟩
  else
    let rid := get_video_id env.resolve args.cookies_from_browser args.cookies
    match rid.result with
    | none => ⟨.errored, fs, rid.msgs⟩
    | some vid =>
      let d := download_audio env.fetch vid args.tempdir
        args.cookies_from_browser args.cookies fs
      match d.result with
      | none => ⟨.errored, d.fs, []⟩
      | some temp_audio =>
        let out_base := if out_base0 = "" then vid else out_base0
        let final_path := args.outdir ++ "/" ++ out_base ++ "." ++ fmt
        let c := cut_audio env.cut temp_audio start stop final_path
          args.precise d.fs
        match c.result with
        | none => ⟨.errored, c.fs, []⟩
        | some cut_tmp =>
          let cv := convert_format env.convert c.fs cut_tmp final_path fmt
          match cv.error with
          | some _ => ⟨.errored, cv.fs, []⟩
          | none => ⟨.ok final_path (mkLabel out_base), cv.fs, []⟩

/-- Result of the orchestrator's row loop: one outcome per row in
order, the printed lines, and the final filesystem. -/
structure LoopResult where
  outcomes : List RowOutcome
  msgs : List String
  fs : List String

/-- The row loop of `snippet_cli.main`: each row is processed with its
1-based number; an `AudioSnippetError` is caught, logged with the row
number and the loop continues with the next row. -/
def processRows (envF : Nat → JobEnv) (args : Args) :
    List Row → Nat → List String → LoopResult
  | [], _, fs => ⟨[], [], fs⟩
  | r :: rest, i, fs =>
    let rr := process_csv_row (envF i) r i args fs
    let tailRes := processRows envF args rest (i + 1) rr.fs
    let errMsg :=
      match rr.outcome with
      | .errored => ["[ERROR] Row " ++ toString i ++ ":"]
      | _ => []
    ⟨rr.outcome :: tailRes.outcomes, rr.msgs ++ errMsg ++ tailRes.msgs,
      tailRes.fs⟩

/-- What `snippet_cli.main` produces: the process exit code, the per-row
outcomes, and the printed lines. -/
structure MainResult where
  exitCode : Nat
  outcomes : List RowOutcome
  msgs : List String

/-- The row-processing phase of `snippet_cli.main`: a job table with the
required columns missing exits 1 before any row; otherwise every row is
processed and the run exits 0. -/
def snippet_main (envF : Nat → JobEnv) (args : Args)
    (fieldnames : List String) (rows : List Row) (fs : List String) :
    MainResult :=
  if validate_csv_format fieldnames then
    let lr := processRows envF args rows 1 fs
    ⟨0, lr.outcomes, lr.msgs ++ ["[DONE] All jobs processed."]⟩
  else ⟨1, [], []⟩

/-- Did the row complete with an artifact? -/
def RowOutcome.isOk : RowOutcome → Bool
  | .ok _ _ => true
  | _ => false

/-- Was the row skipped for missing required cells? -/
def RowOutcome.isSkipped : RowOutcome → Bool
  | .skipped => true
  | _ => false

/-- The artifact paths of the completed rows, in order. -/
def artifactsOf (outcomes : List RowOutcome) : List String :=
  outcomes.filterMap fun o =>
    match o with
    | .ok p _ => some p
    | _ => none

/-- Oracle environment for concrete runs: every invocation succeeds and
row i resolves to video id `vidi`. -/
def envAllOk (i : Nat) : JobEnv :=
  ⟨fun _ => some ("vid" ++ toString i), fun _ => true, true, true⟩

/-- Oracle environment whose row-1 resolution fails; all else succeeds. -/
def envRow1Fails (i : Nat) : JobEnv :=
  if i = 1 then ⟨fun _ => none, fun _ => true, true, true⟩ else envAllOk i

/-- A run configuration: default format m4a, fast cuts, no credentials. -/
def argsDemo : Args :=
  ⟨"m4a", false, false, none, none, "snippets", "downloads"⟩

/-- The same run configuration with the soundboard-ready flag set. -/
def argsSB : Args :=
  ⟨"m4a", false, true, none, none, "snippets", "downloads"⟩

/-- Job table of the C1 scenario: two valid rows around one row missing
its end timecode. -/
def rowsDemo : List Row :=
  [⟨"http://u1", "0:01", "0:02", "clip_one", ""⟩,
   ⟨"http://u2", "1", "", "", ""⟩,
   ⟨"http://u3", "00:00:05.5", "10", "", ""⟩]

/-- The header row of a valid job table. -/
def fieldsDemo : List String := ["url", "start", "end"]

set_option maxRecDepth 8000

/-- C2: for every clip count n in [0,200] the grid planner returns
(rows, cols) with rows*cols >= n, rows >= cols and rows - cols <= 2,
and for n = 0 or n = 1 it returns exactly (1,1). -/
theorem grid_plan_properties_C2 :
    (∀ n : Nat, n ≤ 200 →
      n ≤ (calculate_optimal_grid n).1 * (calculate_optimal_grid n).2 ∧
      (calculate_optimal_grid n).2 ≤ (calculate_optimal_grid n).1 ∧
      (calculate_optimal_grid n).1 - (calculate_optimal_grid n).2 ≤ 2) ∧
    calculate_optimal_grid 0 = (1, 1) ∧ calculate_optimal_grid 1 = (1, 1) := by
  refine ⟨?_, by decide, by decide⟩
  have h : ∀ n < 201,
      n ≤ (calculate_optimal_grid n).1 * (calculate_optimal_grid n).2 ∧
      (calculate_optimal_grid n).2 ≤ (calculate_optimal_grid n).1 ∧
      (calculate_optimal_grid n).1 - (calculate_optimal_grid n).2 ≤ 2 := by decide
  exact fun n hn => h n (by omega)

/-- Witness for C2 at n = 28. -/
theorem grid_plan_properties_C2_witness :
    28 ≤ 200 ∧
    (28 ≤ (calculate_optimal_grid 28).1 * (calculate_optimal_grid 28).2 ∧
      (calculate_optimal_grid 28).2 ≤ (calculate_optimal_grid 28).1 ∧
      (calculate_optimal_grid 28).1 - (calculate_optimal_grid 28).2 ≤ 2) :=
  ⟨by decide, grid_plan_properties_C2.1 28 (by decide)⟩

/-- C4: the grid planner applied to 28 clips returns (6, 5) — thirty
slots, two empty — not the (7, 4) layout asserted by the spec scenario
and by the repository's own test suite (`test_generate_soundboard.py`
asserts `calculate_optimal_grid(28) == (7, 4)`); (7, 4) is not even a
candidate of the search, whose rows range only up to cols + 2. -/
theorem grid_28_code_result_C4 : calculate_optimal_grid 28 = (6, 5) := by decide

/-- C8 counterexample: the timecode-handling function is not the
identity — it strips surrounding whitespace. -/
theorem time_str_not_identity_C8 : time_str " 5" ≠ " 5" := by decide

/-- C8 (amended): `time_str` returns its input with leading and trailing
whitespace stripped, hence is the identity exactly on already-stripped
timecode strings; no other transformation is applied. -/
theorem time_str_strip_C8 :
    ∀ t : String, time_str t = pyStrip t ∧ (pyStrip t = t → time_str t = t) :=
  fun _ => ⟨rfl, fun h => h⟩

/-- Witness for C8 at a concrete already-stripped timecode. -/
theorem time_str_strip_C8_witness :
    time_str "00:01:30.5" = pyStrip "00:01:30.5" ∧
    time_str "00:01:30.5" = "00:01:30.5" :=
  ⟨(time_str_strip_C8 "00:01:30.5").1,
    (time_str_strip_C8 "00:01:30.5").2 (by decide)⟩

/-- C5: converting to the native intermediate format `m4a` renames the
intermediate onto the final path with no external invocation,
overwriting a pre-existing file; converting to another supported format
(`mp3`, `wav`) performs exactly one re-encode invocation and removes
the intermediate; any other format is a `ConvertError` with no
invocation. -/
theorem convert_format_behavior_C5 :
    ∀ (convertOk : Bool) (fs : List String) (input output : String),
      input ≠ output →
      ((convert_format convertOk fs input output "m4a").commands = [] ∧
        (convert_format convertOk fs input output "m4a").error = none ∧
        output ∈ (convert_format convertOk fs input output "m4a").fs ∧
        input ∉ (convert_format convertOk fs input output "m4a").fs) ∧
      (∀ fmt, (fmt = "mp3" ∨ fmt = "wav") → convertOk = true →
        (convert_format convertOk fs input output fmt).commands.length = 1 ∧
        (convert_format convertOk fs input output fmt).error = none ∧
        output ∈ (convert_format convertOk fs input output fmt).fs ∧
        input ∉ (convert_format convertOk fs input output fmt).fs) ∧
      (∀ fmt, fmt ≠ "m4a" → fmt ≠ "mp3" → fmt ≠ "wav" →
        (convert_format convertOk fs input output fmt).commands = [] ∧
        (convert_format convertOk fs input output fmt).error =
          some ("Unsupported format: " ++ fmt)) := by
  intro convertOk fs input output hne
  refine ⟨?_, ?_, ?_⟩
  · simp [convert_format, fsAdd, fsRemove, List.mem_filter, hne]
  · have hne' : ¬output = input := fun h => hne h.symm
    rintro fmt (rfl | rfl) hok <;>
      simp [convert_format, hok, fsAdd, fsRemove, List.mem_filter, hne, hne']
  · intro fmt h1 h2 h3
    simp [convert_format, h1, h2, h3]

/-- Witness for C5: a concrete promote-to-m4a, a concrete mp3 re-encode
and a concrete unsupported format. -/
theorem convert_format_behavior_C5_witness :
    (((convert_format true ["s/x.m4a"] "s/x.cut.m4a" "s/x.m4a" "m4a").commands
        = [] ∧
      (convert_format true ["s/x.m4a"] "s/x.cut.m4a" "s/x.m4a" "m4a").error
        = none ∧
      "s/x.m4a" ∈
        (convert_format true ["s/x.m4a"] "s/x.cut.m4a" "s/x.m4a" "m4a").fs ∧
      "s/x.cut.m4a" ∉
        (convert_format true ["s/x.m4a"] "s/x.cut.m4a" "s/x.m4a" "m4a").fs) ∧
    ((convert_format true ["s/x.m4a"] "s/x.cut.m4a" "s/x.m4a" "mp3").commands.length
        = 1 ∧
      (convert_format true ["s/x.m4a"] "s/x.cut.m4a" "s/x.m4a" "mp3").error
        = none ∧
      "s/x.m4a" ∈
        (convert_format true ["s/x.m4a"] "s/x.cut.m4a" "s/x.m4a" "mp3").fs ∧
      "s/x.cut.m4a" ∉
        (convert_format true ["s/x.m4a"] "s/x.cut.m4a" "s/x.m4a" "mp3").fs) ∧
    ((convert_format true ["s/x.m4a"] "s/x.cut.m4a" "s/x.m4a" "flac").commands
        = [] ∧
      (convert_format true ["s/x.m4a"] "s/x.cut.m4a" "s/x.m4a" "flac").error
        = some ("Unsupported format: " ++ "flac"))) :=
  ⟨(convert_format_behavior_C5 true ["s/x.m4a"] "s/x.cut.m4a" "s/x.m4a"
      (by decide)).1,
    (convert_format_behavior_C5 true ["s/x.m4a"] "s/x.cut.m4a" "s/x.m4a"
      (by decide)).2.1 "mp3" (Or.inl rfl) rfl,
    (convert_format_behavior_C5 true ["s/x.m4a"] "s/x.cut.m4a" "s/x.m4a"
      (by decide)).2.2 "flac" (by decide) (by decide) (by decide)⟩

/-- C9: with the soundboard-ready flag set, every row that completes
does so with a `.wav` final path, whatever the row's format column and
the run default format say. -/
theorem soundboard_ready_forces_wav_C9 :
    ∀ (env : JobEnv) (row : Row) (rowNum : Nat) (args : Args)
      (fs : List String) (path label : String),
      args.soundboard_ready = true →
      (process_csv_row env row rowNum args fs).outcome = .ok path label →
      ∃ base, path = args.outdir ++ "/" ++ base ++ "." ++ "wav" := by
  intro env row rowNum args fs path label hsb hok
  simp only [process_csv_row, hsb, if_true] at hok
  split at hok
  · simp at hok
  · split at hok
    · simp at hok
    · split at hok
      · simp at hok
      · split at hok
        · simp at hok
        · split at hok
          · simp at hok
          · simp only [RowOutcome.ok.injEq] at hok
            exact ⟨_, hok.1.symm⟩

/-- Witness for C9: a row whose format column says mp3, under a run
default of m4a, completes with a `.wav` artifact. -/
theorem soundboard_ready_forces_wav_C9_witness :
    argsSB.soundboard_ready = true ∧
    (process_csv_row (envAllOk 1) ⟨"http://u1", "0:01", "0:02", "clip_one", "mp3"⟩
        1 argsSB []).outcome = .ok "snippets/clip_one.wav" "Clip One" ∧
    ∃ base, "snippets/clip_one.wav"
      = argsSB.outdir ++ "/" ++ base ++ "." ++ "wav" :=
  ⟨rfl, by decide,
    soundboard_ready_forces_wav_C9 (envAllOk 1)
      ⟨"http://u1", "0:01", "0:02", "clip_one", "mp3"⟩ 1 argsSB []
      "snippets/clip_one.wav" "Clip One" rfl (by decide)⟩

/-- C3 counterexample: with a cookie file and a browser credential both
configured, a failing cookie-file fetch is not surfaced — the fetch
operation retries without any credential and succeeds, contradicting
the claimed exclusive use of the cookie file. -/
theorem cookie_file_fetch_fallback_C3_counterexample :
    (download_audio (fun a => decide (a = Attempt.plain)) "vid" "downloads"
        (some "chrome") (some "cookies.txt") []).attempts
      = [.withFile "cookies.txt", .plain] ∧
    (download_audio (fun a => decide (a = Attempt.plain)) "vid" "downloads"
        (some "chrome") (some "cookies.txt") []).result
      = some "downloads/vid.m4a" := by decide

/-- C3 (amended): with a cookie-file credential configured, the
resolution operation uses it exclusively — one invocation, failure
surfaced immediately, no fallback — and the fetch operation does the
same provided no browser credential is simultaneously configured (when
both are configured, a cookie-file fetch failure triggers the one
credential-less retry of the browser path). -/
theorem cookie_file_exclusive_C3 :
    ∀ (oracle : Attempt → Option String) (cb : Option String) (f : String),
      (run_with_cookie_fallback oracle cb (some f)).attempts = [.withFile f] ∧
      (oracle (.withFile f) = none →
        (run_with_cookie_fallback oracle cb (some f)).result = none) ∧
      ∀ (fetchOk : Attempt → Bool) (vid tempdir : String) (fs : List String),
        ((download_audio fetchOk vid tempdir none (some f) fs).attempts = []
          ∨ (download_audio fetchOk vid tempdir none (some f) fs).attempts
              = [.withFile f]) ∧
        ((tempdir ++ "/" ++ vid ++ ".m4a") ∉ fs →
          fetchOk (.withFile f) = false →
          (download_audio fetchOk vid tempdir none (some f) fs).result
            = none) := by
  intro oracle cb f
  refine ⟨?_, ?_, ?_⟩
  · cases h : oracle (.withFile f) <;> simp [run_with_cookie_fallback, h]
  · intro h; simp [run_with_cookie_fallback, h]
  · intro fetchOk vid tempdir fs
    by_cases hm : (tempdir ++ "/" ++ vid ++ ".m4a") ∈ fs
    · constructor
      · left; simp [download_audio, hm]
      · intro hm' _; exact absurd hm hm'
    · constructor
      · right
        cases hk : fetchOk (.withFile f) <;>
          simp [download_audio, hm, chosen_cookie_attempt, hk]
      · intro _ hk
        simp [download_audio, hm, chosen_cookie_attempt, hk]

/-- Witness for C3 at a concrete failing cookie-file configuration. -/
theorem cookie_file_exclusive_C3_witness :
    (run_with_cookie_fallback (fun _ => none) none (some "c.txt")).attempts
      = [.withFile "c.txt"] ∧
    (run_with_cookie_fallback (fun _ => none) none (some "c.txt")).result
      = none ∧
    ((download_audio (fun _ => false) "vid" "dl" none (some "c.txt") []).attempts
        = [] ∨
      (download_audio (fun _ => false) "vid" "dl" none (some "c.txt") []).attempts
        = [.withFile "c.txt"]) ∧
    (download_audio (fun _ => false) "vid" "dl" none (some "c.txt") []).result
      = none :=
  ⟨(cookie_file_exclusive_C3 (fun _ => none) none "c.txt").1,
    (cookie_file_exclusive_C3 (fun _ => none) none "c.txt").2.1 rfl,
    ((cookie_file_exclusive_C3 (fun _ => none) none "c.txt").2.2
        (fun _ => false) "vid" "dl" []).1,
    ((cookie_file_exclusive_C3 (fun _ => none) none "c.txt").2.2
        (fun _ => false) "vid" "dl" []).2 (by decide) rfl⟩

/-- C7: with only a browser credential configured and the credentialed
resolution failing, exactly one credential-less retry happens after a
warning; a successful retry returns its result, and a failing one
surfaces the combined error with remediation steps. -/
theorem browser_cookie_retry_C7 :
    ∀ (oracle : Attempt → Option String) (b : String),
      oracle (.withBrowser b) = none →
      (run_with_cookie_fallback oracle (some b) none).attempts
        = [.withBrowser b, .plain] ∧
      ("[WARN] Cookie extraction from " ++ b ++ " failed.")
        ∈ (run_with_cookie_fallback oracle (some b) none).msgs ∧
      (∀ out, oracle .plain = some out →
        (run_with_cookie_fallback oracle (some b) none).result = some out) ∧
      (oracle .plain = none →
        (run_with_cookie_fallback oracle (some b) none).result = none ∧
        ("[ERROR] Failed both with and without cookies. Video may be age-restricted and require authentication.")
          ∈ (run_with_cookie_fallback oracle (some b) none).msgs ∧
        ("[HELP] 1. Close ALL " ++ b ++ " windows and try again")
          ∈ (run_with_cookie_fallback oracle (some b) none).msgs) := by
  intro oracle b hfail
  cases hp : oracle .plain <;> simp [run_with_cookie_fallback, hfail, hp]

/-- Witness for C7: one concrete browser-credential run whose retry
succeeds, and one whose retry also fails. -/
theorem browser_cookie_retry_C7_witness :
    ((run_with_cookie_fallback
        (fun a => if a = Attempt.plain then some "vid42" else none)
        (some "chrome") none).attempts = [.withBrowser "chrome", .plain] ∧
      (run_with_cookie_fallback
        (fun a => if a = Attempt.plain then some "vid42" else none)
        (some "chrome") none).result = some "vid42") ∧
    ((run_with_cookie_fallback (fun _ => none) (some "chrome") none).result
        = none ∧
      ("[HELP] 1. Close ALL " ++ "chrome" ++ " windows and try again")
        ∈ (run_with_cookie_fallback (fun _ => none) (some "chrome") none).msgs) :=
  ⟨⟨(browser_cookie_retry_C7
        (fun a => if a = Attempt.plain then some "vid42" else none)
        "chrome" (by decide)).1,
      (browser_cookie_retry_C7
        (fun a => if a = Attempt.plain then some "vid42" else none)
        "chrome" (by decide)).2.2.1 "vid42" (by decide)⟩,
    ⟨((browser_cookie_retry_C7 (fun _ => none) "chrome" rfl).2.2.2 rfl).1,
      ((browser_cookie_retry_C7 (fun _ => none) "chrome" rfl).2.2.2 rfl).2.2⟩⟩

/-- C6: a cache hit (the file `tempdir/id.m4a` exists) makes the fetch
operation return the cached path with no fetch invocation and the
filesystem untouched; on a miss with a succeeding credentialed fetch,
exactly one invocation happens, and the identical job run next reuses
the cached file without fetching. -/
theorem download_cache_C6 :
    ∀ (fetchOk : Attempt → Bool) (vid tempdir : String)
      (cb cf : Option String) (fs : List String),
      ((tempdir ++ "/" ++ vid ++ ".m4a") ∈ fs →
        (download_audio fetchOk vid tempdir cb cf fs).attempts = [] ∧
        (download_audio fetchOk vid tempdir cb cf fs).result
          = some (tempdir ++ "/" ++ vid ++ ".m4a") ∧
        (download_audio fetchOk vid tempdir cb cf fs).fs = fs) ∧
      ((tempdir ++ "/" ++ vid ++ ".m4a") ∉ fs →
        fetchOk (chosen_cookie_attempt cb cf) = true →
        (download_audio fetchOk vid tempdir cb cf fs).attempts
          = [chosen_cookie_attempt cb cf] ∧
        (download_audio fetchOk vid tempdir cb cf fs).result
          = some (tempdir ++ "/" ++ vid ++ ".m4a") ∧
        (download_audio fetchOk vid tempdir cb cf
            (download_audio fetchOk vid tempdir cb cf fs).fs).attempts = [] ∧
        (download_audio fetchOk vid tempdir cb cf
            (download_audio fetchOk vid tempdir cb cf fs).fs).result
          = some (tempdir ++ "/" ++ vid ++ ".m4a")) := by
  intro fetchOk vid tempdir cb cf fs
  constructor
  · intro hm
    simp [download_audio, hm]
  · intro hm hk
    have h1 : (download_audio fetchOk vid tempdir cb cf fs)
        = ⟨[chosen_cookie_attempt cb cf], false,
            some (tempdir ++ "/" ++ vid ++ ".m4a"),
            fsAdd fs (tempdir ++ "/" ++ vid ++ ".m4a")⟩ := by
      simp [download_audio, hm, hk]
    refine ⟨by rw [h1], by rw [h1], ?_, ?_⟩ <;>
      · rw [h1]
        simp [download_audio, fsAdd]

/-- Witness for C6: a concrete hit, and a concrete miss followed by a
re-run on the resulting filesystem. -/
theorem download_cache_C6_witness :
    ((download_audio (fun _ => true) "vid" "dl" none none ["dl/vid.m4a"]).attempts
        = [] ∧
      (download_audio (fun _ => true) "vid" "dl" none none
          ["dl/vid.m4a"]).result = some ("dl" ++ "/" ++ "vid" ++ ".m4a") ∧
      (download_audio (fun _ => true) "vid" "dl" none none ["dl/vid.m4a"]).fs
        = ["dl/vid.m4a"]) ∧
    ((download_audio (fun _ => true) "vid" "dl" none none []).attempts
        = [chosen_cookie_attempt none none] ∧
      (download_audio (fun _ => true) "vid" "dl" none none []).result
        = some ("dl" ++ "/" ++ "vid" ++ ".m4a") ∧
      (download_audio (fun _ => true) "vid" "dl" none none
          (download_audio (fun _ => true) "vid" "dl" none none []).fs).attempts
        = [] ∧
      (download_audio (fun _ => true) "vid" "dl" none none
          (download_audio (fun _ => true) "vid" "dl" none none []).fs).result
        = some ("dl" ++ "/" ++ "vid" ++ ".m4a")) :=
  ⟨(download_cache_C6 (fun _ => true) "vid" "dl" none none ["dl/vid.m4a"]).1
      (by decide),
    (download_cache_C6 (fun _ => true) "vid" "dl" none none []).2
      (by decide) rfl⟩

/-- The orchestrator's loop yields exactly one outcome per row: no
outcome of any row can abort the traversal. -/
theorem processRows_length (envF : Nat → JobEnv) (args : Args) :
    ∀ (rows : List Row) (i : Nat) (fs : List String),
      (processRows envF args rows i fs).outcomes.length = rows.length := by
  intro rows
  induction rows with
  | nil => intro i fs; rfl
  | cons r rest ih => intro i fs; simp [processRows, ih]

/-- C1: a per-job error never aborts the batch — every row of a valid
table yields exactly one outcome, in order, and the run exits 0; on the
scenario table (two valid rows around one row missing its end timecode)
exactly two artifacts are produced, one skip warning naming row 2 is
logged and the exit code is 0; and with the first row's resolution
failing, the error is logged with row number 1 while the later valid
row's artifact is still produced. -/
theorem batch_isolation_C1 :
    (∀ (envF : Nat → JobEnv) (args : Args) (fieldnames : List String)
      (rows : List Row) (fs : List String),
      validate_csv_format fieldnames = true →
      (snippet_main envF args fieldnames rows fs).outcomes.length
        = rows.length ∧
      (snippet_main envF args fieldnames rows fs).exitCode = 0) ∧
    ((artifactsOf
        (snippet_main envAllOk argsDemo fieldsDemo rowsDemo []).outcomes).length
        = 2 ∧
      artifactsOf (snippet_main envAllOk argsDemo fieldsDemo rowsDemo []).outcomes
        = ["snippets/clip_one.m4a", "snippets/vid3.m4a"] ∧
      ((snippet_main envAllOk argsDemo fieldsDemo rowsDemo []).outcomes.countP
          (fun o => o.isSkipped)) = 1 ∧
      "[WARN] Row 2 missing url/start/end. Skipping."
        ∈ (snippet_main envAllOk argsDemo fieldsDemo rowsDemo []).msgs ∧
      (snippet_main envAllOk argsDemo fieldsDemo rowsDemo []).exitCode = 0) ∧
    (artifactsOf
        (snippet_main envRow1Fails argsDemo fieldsDemo rowsDemo []).outcomes
        = ["snippets/vid3.m4a"] ∧
      "[ERROR] Row 1:"
        ∈ (snippet_main envRow1Fails argsDemo fieldsDemo rowsDemo []).msgs ∧
      (snippet_main envRow1Fails argsDemo fieldsDemo rowsDemo []).exitCode
        = 0) := by
  refine ⟨?_, by decide, by decide⟩
  intro envF args fieldnames rows fs hval
  constructor
  · simp [snippet_main, hval, processRows_length]
  · simp [snippet_main, hval]

/-- Witness for C1 at the scenario table. -/
theorem batch_isolation_C1_witness :
    validate_csv_format fieldsDemo = true ∧
    (snippet_main envAllOk argsDemo fieldsDemo rowsDemo []).outcomes.length
      = rowsDemo.length ∧
    (snippet_main envAllOk argsDemo fieldsDemo rowsDemo []).exitCode = 0 :=
  ⟨by decide,
    (batch_isolation_C1.1 envAllOk argsDemo fieldsDemo rowsDemo []
      (by decide)).1,
    (batch_isolation_C1.1 envAllOk argsDemo fieldsDemo rowsDemo []
      (by decide)).2⟩

/-- Membership in a set-insert. -/
theorem mem_addUnique {x n : String} {acc : List String} :
    x ∈ addUnique acc n ↔ x ∈ acc ∨ x = n := by
  by_cases h : n ∈ acc <;> simp [addUnique, h]
  exact fun he => he ▸ h

/-- Set-insert preserves distinctness. -/
theorem nodup_addUnique {n : String} {acc : List String} (h : acc.Nodup) :
    (addUnique acc n).Nodup := by
  by_cases hm : n ∈ acc <;> simp [addUnique, hm, List.nodup_append, h]

/-- Membership after one extension's pass over the folder. -/
theorem mem_addMatches (ext : String) :
    ∀ (folder : List Entry) (acc : List String) (x : String),
      x ∈ addMatches ext folder acc ↔
        x ∈ acc ∨ ∃ e ∈ folder, e.isFile = true ∧
          pyLower (pySuffix e.name) = pyLower ext ∧ e.name = x := by
  intro folder
  induction folder with
  | nil => intro acc x; simp [addMatches]
  | cons e rest ih =>
    intro acc x
    simp only [addMatches]
    rw [ih]
    by_cases hc :
        (e.isFile && decide (pyLower (pySuffix e.name) = pyLower ext)) = true
    · have hc' := hc
      simp only [Bool.and_eq_true, decide_eq_true_eq] at hc'
      simp only [hc, if_true, mem_addUnique, List.mem_cons]
      constructor
      · rintro ((hx | rfl) | ⟨e', he', h1, h2, h3⟩)
        · exact Or.inl hx
        · exact Or.inr ⟨e, Or.inl rfl, hc'.1, hc'.2, rfl⟩
        · exact Or.inr ⟨e', Or.inr he', h1, h2, h3⟩
      · rintro (hx | ⟨e', (rfl | he'), h1, h2, h3⟩)
        · exact Or.inl (Or.inl hx)
        · exact Or.inl (Or.inr h3.symm)
        · exact Or.inr ⟨e', he', h1, h2, h3⟩
    · simp only [hc, if_false, List.mem_cons]
      constructor
      · rintro (hx | ⟨e', he', h1, h2, h3⟩)
        · exact Or.inl hx
        · exact Or.inr ⟨e', Or.inr he', h1, h2, h3⟩
      · rintro (hx | ⟨e', (rfl | he'), h1, h2, h3⟩)
        · exact Or.inl hx
        · exact absurd (by simp [h1, h2] : _) hc
        · exact Or.inr ⟨e', he', h1, h2, h3⟩

/-- One extension's pass preserves distinctness. -/
theorem nodup_addMatches (ext : String) :
    ∀ (folder : List Entry) (acc : List String), acc.Nodup →
      (addMatches ext folder acc).Nodup := by
  intro folder
  induction folder with
  | nil => intro acc h; exact h
  | cons e rest ih =>
    intro acc h
    simp only [addMatches]
    split
    · exact ih _ (nodup_addUnique h)
    · exact ih _ h

/-- Membership in the full collection pass. -/
theorem mem_collectAll :
    ∀ (exts : List String) (folder : List Entry) (acc : List String)
      (x : String),
      x ∈ collectAll exts folder acc ↔
        x ∈ acc ∨ ∃ ext ∈ exts, ∃ e ∈ folder, e.isFile = true ∧
          pyLower (pySuffix e.name) = pyLower ext ∧ e.name = x := by
  intro exts
  induction exts with
  | nil => intro folder acc x; simp [collectAll]
  | cons ext rest ih =>
    intro folder acc x
    simp only [collectAll]
    rw [ih, mem_addMatches]
    constructor
    · rintro ((hx | ⟨e, he, h1, h2, h3⟩) | ⟨ext', hext', he'⟩)
      · exact Or.inl hx
      · exact Or.inr ⟨ext, List.mem_cons_self _ _, e, he, h1, h2, h3⟩
      · exact Or.inr ⟨ext', List.mem_cons_of_mem _ hext', he'⟩
    · rintro (hx | ⟨ext', hext', he'⟩)
      · exact Or.inl (Or.inl hx)
      · rcases List.mem_cons.mp hext' with rfl | hmem
        · exact Or.inl (Or.inr he')
        · exact Or.inr ⟨ext', hmem, he'⟩

/-- The full collection pass yields a duplicate-free list. -/
theorem nodup_collectAll :
    ∀ (exts : List String) (folder : List Entry) (acc : List String),
      acc.Nodup → (collectAll exts folder acc).Nodup := by
  intro exts
  induction exts with
  | nil => intro folder acc h; exact h
  | cons ext rest ih =>
    intro folder acc h
    exact ih folder _ (nodup_addMatches ext folder acc h)

/-- The lexicographic comparison is total. -/
theorem lexLe_total : ∀ as bs : List Char,
    lexLe as bs = true ∨ lexLe bs as = true := by
  intro as
  induction as with
  | nil => intro bs; exact Or.inl rfl
  | cons a as ih =>
    intro bs
    cases bs with
    | nil => exact Or.inr rfl
    | cons b bs =>
      simp only [lexLe]
      rcases Nat.lt_trichotomy a.toNat b.toNat with h | h | h
      · left; simp [h]
      · have h2 : ¬ a.toNat < b.toNat := by omega
        have h3 : ¬ b.toNat < a.toNat := by omega
        rcases ih bs with hh | hh
        · left; simp [h2, h3, hh]
        · right; simp [h2, h3, hh]
      · right; simp [h]

/-- The lexicographic comparison is transitive. -/
theorem lexLe_trans : ∀ as bs cs : List Char,
    lexLe as bs = true → lexLe bs cs = true → lexLe as cs = true := by
  intro as
  induction as with
  | nil => intro bs cs _ _; rfl
  | cons a as ih =>
    intro bs cs h1 h2
    cases bs with
    | nil => simp [lexLe] at h1
    | cons b bs =>
      cases cs with
      | nil => simp [lexLe] at h2
      | cons c cs =>
        simp only [lexLe] at h1 h2 ⊢
        by_cases hab : a.toNat < b.toNat <;>
          by_cases hba : b.toNat < a.toNat <;>
            by_cases hbc : b.toNat < c.toNat <;>
              by_cases hcb : c.toNat < b.toNat <;>
                by_cases hac : a.toNat < c.toNat <;>
                  by_cases hca : c.toNat < a.toNat <;>
                    simp [hab, hba, hbc, hcb, hac, hca] at h1 h2 ⊢ <;>
                      first
                        | omega
                        | exact ih bs cs h1 h2

/-- The lower-cased-name order is transitive. -/
theorem nameKeyLe_trans : ∀ a b c : String,
    nameKeyLe a b = true → nameKeyLe b c = true → nameKeyLe a c = true :=
  fun _ _ _ h1 h2 => lexLe_trans _ _ _ h1 h2

/-- The lower-cased-name order is total. -/
theorem nameKeyLe_total : ∀ a b : String,
    (nameKeyLe a b || nameKeyLe b a) = true := by
  intro a b
  rcases lexLe_total (pyLower a).data (pyLower b).data with h | h <;>
    simp [nameKeyLe, h]

/-- C10: for every folder and extension list the discovery operation
returns a duplicate-free list, sorted by lower-cased file name,
containing exactly the regular files whose lower-cased suffix equals
one of the lower-cased extensions. -/
theorem find_audio_files_spec_C10 :
    ∀ (folder : List Entry) (extensions : List String),
      (find_audio_files folder extensions).Nodup ∧
      (find_audio_files folder extensions).Pairwise
        (fun a b => nameKeyLe a b = true) ∧
      ∀ x, x ∈ find_audio_files folder extensions ↔
        ∃ ext ∈ extensions, ∃ e ∈ folder, e.isFile = true ∧
          pyLower (pySuffix e.name) = pyLower ext ∧ e.name = x := by
  intro folder exts
  refine ⟨?_, ?_, ?_⟩
  · exact ((List.mergeSort_perm (collectAll exts folder []) nameKeyLe).symm).nodup
      (nodup_collectAll exts folder [] List.nodup_nil)
  · exact List.sorted_mergeSort nameKeyLe_trans nameKeyLe_total _
  · intro x
    rw [find_audio_files, List.mem_mergeSort, mem_collectAll]
    simp
